import Mathlib

/-!
Shallow embedding of the signal-decoding and classification engine of
`mysql_health_check.go` (mysql_health_api).

The database collaborator is modelled as a point-in-time snapshot
(`DBState`) of what each diagnostic query would return:
`none` stands for a query error (or, for single-row lookups, an absent
row, which the Go code observes as `sql.ErrNoRows`), while `some` carries
the raw tabular / scalar result.  A tabular cell is
`String × Option String`: the column name paired with the cell value,
where `Option.none` is the database NULL marker (the driver hands the Go
code a nil `[]byte`) and `some s` is a byte-encoded value read as text.

The platform is taken to be 64-bit (`strconv.IntSize == 64`), so machine
integers are modelled as `Int` with the relevant Go conversions made
explicit (`maxInt64`, clamping in `atoi`).
-/

/-- The record filled by `unknownColumns`, mirroring Go's `SlaveStatus`
struct.  Go zero-values every field to `""`. -/
structure SlaveStatus where
  masterHost : String := ""
  masterPort : String := ""
  secondsMaster : String := ""
deriving DecidableEq, Repr

/-- A raw result row: column names paired with cell values
(`none` = database NULL). -/
abbrev RawRow := List (String × Option String)

/-- Snapshot of the four diagnostic probes for one classification request. -/
structure DBState where
  /-- Result of `show variables like 'read_only'`: the `(key, value)` row,
  or `none` on query error / no row. -/
  readOnlyResult : Option (String × String)
  /-- Result of `show slave status`: the rows, or `none` on query error. -/
  slaveRows : Option (List RawRow)
  /-- Result of the Binlog Dump counting query, or `none` on query error. -/
  binlogCount : Option Int
  /-- Value row of the wsrep cluster-state lookup, or `none` on query
  error / no row. -/
  galeraRow : Option String
deriving DecidableEq, Repr

/-- `math.MaxInt64`, the value substituted for the sentinel threshold `0`
on a 64-bit platform. -/
def maxInt64 : Int := 9223372036854775807

/-- `math.MinInt64`. -/
def minInt64 : Int := -9223372036854775808

/-- Accumulator loop of decimal-digit parsing: returns `none` as soon as a
non-digit character appears, mirroring `strconv.Atoi`'s syntax error. -/
def digitsAux (acc : Nat) : List Char → Option Nat
  | [] => some acc
  | c :: cs => if c.isDigit then digitsAux (10 * acc + (c.toNat - 48)) cs else none

/-- Parse a non-empty run of decimal digits; `none` on the empty list or
on any non-digit character. -/
def parseDigits : List Char → Option Nat
  | [] => none
  | cs => digitsAux 0 cs

/-- Clamp to the 64-bit signed range, as `strconv.ParseInt` does on range
error (the Go code ignores the accompanying error and keeps the value). -/
def clampInt64 (n : Int) : Int :=
  if n > maxInt64 then maxInt64 else if n < minInt64 then minInt64 else n

/-- Go's `strconv.Atoi` as used by the code: the error return is always
discarded, so a syntax error (empty string, stray character) yields `0`
and an out-of-range value is clamped. -/
def atoi (s : String) : Int :=
  match s.data with
  | '+' :: rest => (parseDigits rest).elim 0 fun n => clampInt64 (Int.ofNat n)
  | '-' :: rest => (parseDigits rest).elim 0 fun n => clampInt64 (-(Int.ofNat n))
  | l => (parseDigits l).elim 0 fun n => clampInt64 (Int.ofNat n)

/-- `int2bool`: convert integers to boolean. -/
def int2bool (value : Int) : Bool :=
  if value ≠ 0 then true else false

/-- One column comparison chain of `unknownColumns`'s inner loop: store the
cell text into the field whose recognized name matches, else ignore it. -/
def applyCol (res : SlaveStatus) (col : String) (v : String) : SlaveStatus :=
  if col = "Master_Host" then { res with masterHost := v }
  else if col = "Master_Port" then { res with masterPort := v }
  else if col = "Seconds_Behind_Master" then { res with secondsMaster := v }
  else res

/-- Inner loop of `unknownColumns` over one row's cells.  A `none` cell is
the nil `[]byte` the driver produces for NULL (or any non-byte value): the
Go code then executes `return *res`, abandoning the whole scan — the
second component `true` records that early return. -/
def scanCells (res : SlaveStatus) : RawRow → SlaveStatus × Bool
  | [] => (res, false)
  | (_, none) :: _ => (res, true)
  | (col, some v) :: rest => scanCells (applyCol res col v) rest

/-- Outer `rows.Next()` loop of `unknownColumns`: rows are scanned in
order into the same accumulator; an early return inside a row ends the
whole function. -/
def scanRows (res : SlaveStatus) : List RawRow → SlaveStatus
  | [] => res
  | row :: rest =>
      match scanCells res row with
      | (res2, true) => res2
      | (res2, false) => scanRows res2 rest

/-- `unknownColumns`: get values of the recognized columns from a result
with unknown column set. -/
def unknownColumns (rows : List RawRow) : SlaveStatus :=
  scanRows {} rows

/-- `readOnly`: `false` on query error, `false` when the variable value is
`"OFF"`, `true` otherwise. -/
def readOnly (st : DBState) : Bool :=
  match st.readOnlyResult with
  | none => false
  | some kv => if kv.2 = "OFF" then false else true

/-- `replicaStatus`: the Lag Evaluator.  A `lagCount` of `0` is replaced
by `math.MaxInt64` (64-bit platform); a failed query returns `(false, 0)`;
an empty decoded `Seconds_Behind_Master` marks the node not-a-slave and
is replaced by `"0"` before parsing; the decision is
`lag > 0 || !notSlave` then strict `lagCount > lag`. -/
def replicaStatus (lagCount : Int) (st : DBState) : Bool × Int :=
  let bound := if lagCount = 0 then maxInt64 else lagCount
  match st.slaveRows with
  | none => (false, 0)
  | some rows =>
      let slaveValues := unknownColumns rows
      let seconds :=
        if slaveValues.secondsMaster = "" then "0" else slaveValues.secondsMaster
      let lag := atoi seconds
      if lag > 0 ∨ slaveValues.secondsMaster ≠ "" then
        if bound > lag then (true, lag) else (false, lag)
      else (false, 0)

/-- `isReplica`: `(true, host, port)` when the decoded `Master_Host` is
non-empty, `(false, "", "")` on query error or empty host. -/
def isReplica (st : DBState) : Bool × String × String :=
  match st.slaveRows with
  | none => (false, "", "")
  | some rows =>
      let slaveValues := unknownColumns rows
      if slaveValues.masterHost ≠ "" then
        (true, slaveValues.masterHost, slaveValues.masterPort)
      else (false, "", "")

/-- `servingBinlogs`: the Binlog Dump session count, `0` on query error. -/
def servingBinlogs (st : DBState) : Int :=
  match st.binlogCount with
  | none => 0
  | some count => count

/-- `galeraClusterState`: `(false, "")` on query error or absent row,
otherwise `(true, value)`. -/
def galeraClusterState (st : DBState) : Bool × String :=
  match st.galeraRow with
  | none => (false, "")
  | some v => (true, v)

/-!
Route handlers, reduced to the `(status, content)` pair each passes to
`routeResponse` (the HTTP envelope is outside the core).
-/

/-- `/status/ro`. -/
def RouteStatusReadOnly (st : DBState) : Bool × String :=
  (readOnly st, "")

/-- `/status/rw`. -/
def RouteStatusReadWritable (st : DBState) : Bool × String :=
  (!readOnly st, "")

/-- `/status/single`. -/
def RouteStatusSingle (st : DBState) : Bool × String :=
  (!readOnly st && !(isReplica st).1 && !int2bool (servingBinlogs st), "")

/-- `/status/leader`. -/
def RouteStatusLeader (st : DBState) : Bool × String :=
  (!(isReplica st).1 && int2bool (servingBinlogs st), "")

/-- `/status/follower`. -/
def RouteStatusFollower (st : DBState) : Bool × String :=
  ((isReplica st).1, "")

/-- `/status/topology`. -/
def RouteStatusTopology (st : DBState) : Bool × String :=
  ((!(replicaStatus 0 st).1 && int2bool (servingBinlogs st)) || (isReplica st).1, "")

/-- `/role/master` as in the repository-root `mysql_health_check.go`:
no binlog term. -/
def RouteRoleMaster (st : DBState) : Bool × String :=
  (!readOnly st && !(isReplica st).1, "")

/-- `/role/master` as in `app/mysql_health_check.go`: when the marker file
`/master` exists the answer is unconditionally `true`; otherwise the
formula includes the binlog-serving term. -/
def RouteRoleMasterApp (masterFileExists : Bool) (st : DBState) : Bool × String :=
  if masterFileExists then (true, "")
  else (!readOnly st && !(isReplica st).1 && int2bool (servingBinlogs st), "")

/-- `/role/replica` (unbounded threshold). -/
def RouteRoleReplica (st : DBState) : Bool × String :=
  (readOnly st && (replicaStatus 0 st).1, "")

/-- `/role/replica/<lag>` with the threshold already extracted from the
path. -/
def RouteRoleReplicaByLag (lagParam : Int) (st : DBState) : Bool × String :=
  (readOnly st && (replicaStatus lagParam st).1, "")

/-- `/role/galera`. -/
def RouteRoleGalera (st : DBState) : Bool × String :=
  ((galeraClusterState st).1, "")

/-- `/read/galera/state`. -/
def RouteReadGaleraState (st : DBState) : Bool × String :=
  galeraClusterState st

/-- `/read/replication/lag`: detail is the lag (from the unbounded-threshold
evaluator) as a string when the node is a replica, else empty. -/
def RouteReadReplicationLag (st : DBState) : Bool × String :=
  let rep := isReplica st
  let lagValue := (replicaStatus 0 st).2
  (rep.1, if rep.1 then toString lagValue else "")

/-- `/read/replication/master`: detail is `host:port` when a replica. -/
def RouteReadReplicationMaster (st : DBState) : Bool × String :=
  let rep := isReplica st
  (rep.1, if rep.1 then rep.2.1 ++ ":" ++ rep.2.2 else rep.2.1)

/-- `/read/replication/replicas_count`. -/
def RouteReadReplicasCounter (st : DBState) : Bool × String :=
  let count := servingBinlogs st
  (int2bool count, if int2bool count then toString count else "0")

/-- The spec's `ReplicationRow` as observable at the produced interface:
the `isReplica` triple plus the lag detail exposed by the
replication-lag read endpoint. -/
structure ReplicationRow where
  isReplica : Bool
  masterHost : String
  masterPort : String
  lagDetail : String
deriving DecidableEq, Repr

/-- Assemble the publicly observable `ReplicationRow` for a snapshot. -/
def replicationRow (st : DBState) : ReplicationRow :=
  let rep := isReplica st
  { isReplica := rep.1
    masterHost := rep.2.1
    masterPort := rep.2.2
    lagDetail := (RouteReadReplicationLag st).2 }

example : atoi "42" = 42 := by decide
example : atoi "" = 0 := by decide
example : atoi "-5" = -5 := by decide
example : atoi "0" = 0 := by decide
example : atoi "xy" = 0 := by decide
example :
    unknownColumns [[("Master_Host", some "h"), ("Seconds_Behind_Master", some "3")]] =
      { masterHost := "h", masterPort := "", secondsMaster := "3" } := by decide
example :
    unknownColumns [[("Master_Host", none), ("Master_Port", some "3306")]] =
      { masterHost := "", masterPort := "", secondsMaster := "" } := by decide
example :
    replicaStatus 5 ⟨none, some [[("Seconds_Behind_Master", some "5")]], none, none⟩ =
      (false, 5) := by decide
example :
    replicaStatus 5 ⟨none, some [[("Seconds_Behind_Master", some "4")]], none, none⟩ =
      (true, 4) := by decide
example :
    replicaStatus 0 ⟨none, some [[("Master_Host", some "h")]], none, none⟩ =
      (false, 0) := by decide

/-!  Helper lemmas  -/

/-- If no cell of a row segment is NULL, scanning it never triggers the
early return. -/
theorem scanCells_snd_eq_false (pre : RawRow) :
    ∀ res : SlaveStatus, (∀ p ∈ pre, p.2 ≠ none) → (scanCells res pre).2 = false := by
  induction pre with
  | nil => intro res _; rfl
  | cons hd tl ih =>
      intro res h
      obtain ⟨col, v⟩ := hd
      cases v with
      | none => exact absurd rfl (h (col, none) (by simp))
      | some s =>
          simp only [scanCells]
          exact ih _ fun p hp => h p (List.mem_cons_of_mem _ hp)

/-- Scanning a row that reaches a NULL cell aborts there with whatever the
NULL-free prefix produced. -/
theorem scanCells_append_none (pre post : RawRow) (c : String) :
    ∀ res : SlaveStatus, (∀ p ∈ pre, p.2 ≠ none) →
      scanCells res (pre ++ (c, none) :: post) = ((scanCells res pre).1, true) := by
  induction pre with
  | nil => intro res _; rfl
  | cons hd tl ih =>
      intro res h
      obtain ⟨col, v⟩ := hd
      cases v with
      | none => exact absurd rfl (h (col, none) (by simp))
      | some s =>
          simp only [List.cons_append, scanCells]
          exact ih _ fun p hp => h p (List.mem_cons_of_mem _ hp)

/-- Decoded result of a zero-row replication query: every field at its
zero value. -/
theorem unknownColumns_nil : unknownColumns [] = { } := rfl

/-- `replicaStatus` on a snapshot whose decoded row carries `"0"` in
`Seconds_Behind_Master`: a synced replica, within any unbounded bound. -/
theorem replicaStatus_zero_lag (st : DBState) (rows : List RawRow)
    (hrows : st.slaveRows = some rows)
    (hlag : (unknownColumns rows).secondsMaster = "0") :
    replicaStatus 0 st = (true, 0) := by
  simp only [replicaStatus, hrows, hlag]
  decide

/-!  Claim C4  -/

/-- Claim C4: for every threshold value `t` (including `t = 0`), the Lag
Evaluator `replicaStatus t` applied to a replication-status result with
zero rows, or to a failed replication-status query, returns exactly
`(false, 0)`. -/
theorem c4_empty_result_returns_false_zero (t : Int) (st : DBState)
    (h : st.slaveRows = none ∨ st.slaveRows = some []) :
    replicaStatus t st = (false, 0) := by
  rcases h with h | h
  · simp [replicaStatus, h]
  · have h0 : atoi "0" = 0 := by decide
    have hu : (unknownColumns []).secondsMaster = "" := rfl
    simp [replicaStatus, h, hu, h0]

/-- Witness for C4 at a failed query and at a zero-row result, with the
sentinel `0` and a positive threshold. -/
theorem c4_empty_result_returns_false_zero_witness :
    replicaStatus 0 ⟨none, none, none, none⟩ = (false, 0) ∧
    replicaStatus 7 ⟨none, some [], none, none⟩ = (false, 0) :=
  ⟨c4_empty_result_returns_false_zero 0 ⟨none, none, none, none⟩ (Or.inl rfl),
   c4_empty_result_returns_false_zero 7 ⟨none, some [], none, none⟩ (Or.inr rfl)⟩

/-!  Claim C5  -/

/-- Claim C5: for every decoded replication row with a positive parsed
lag, `replicaStatus 0` returns the same pair as `replicaStatus` at the
maximum representable integer: the sentinel threshold `0` is substituted
by `math.MaxInt64` before any comparison. -/
theorem c5_sentinel_equals_maxint (st : DBState) (rows : List RawRow) (n : Int)
    (hrows : st.slaveRows = some rows)
    (hn : atoi (unknownColumns rows).secondsMaster = n) (hpos : 0 < n) :
    replicaStatus 0 st = replicaStatus maxInt64 st := by
  have hm : ¬ (maxInt64 = (0 : Int)) := by norm_num [maxInt64]
  simp only [replicaStatus, if_neg hm, eq_self_iff_true, if_true, ite_true]

/-- Witness for C5 on a decoded row with parsed lag `3`. -/
theorem c5_sentinel_equals_maxint_witness :
    replicaStatus 0 ⟨none, some [[("Master_Host", some "h"), ("Seconds_Behind_Master", some "3")]], none, none⟩ =
      replicaStatus maxInt64 ⟨none, some [[("Master_Host", some "h"), ("Seconds_Behind_Master", some "3")]], none, none⟩ :=
  c5_sentinel_equals_maxint _ [[("Master_Host", some "h"), ("Seconds_Behind_Master", some "3")]] 3
    rfl (by decide) (by decide)

/-!  Claim C10  -/

/-- Claim C10: for every replication row whose `Seconds_Behind_Master`
field is present and parses to a negative integer `n`, and every
non-negative threshold `t`, `replicaStatus t` returns `(true, n)`: the
present-field branch only requires `threshold > lag`. -/
theorem c10_negative_lag_within_threshold (t : Int) (st : DBState) (rows : List RawRow)
    (n : Int) (ht : 0 ≤ t) (hrows : st.slaveRows = some rows)
    (hs : (unknownColumns rows).secondsMaster ≠ "")
    (hn : atoi (unknownColumns rows).secondsMaster = n) (hneg : n < 0) :
    replicaStatus t st = (true, n) := by
  have hmax : (0 : Int) < maxInt64 := by norm_num [maxInt64]
  simp only [replicaStatus, hrows, if_neg hs, hn]
  rw [if_pos (Or.inr hs), if_pos]
  split
  · omega
  · omega

/-- Witness for C10: lag `"-4"`, threshold `3`. -/
theorem c10_negative_lag_within_threshold_witness :
    replicaStatus 3 ⟨none, some [[("Master_Host", some "h"), ("Seconds_Behind_Master", some "-4")]], none, none⟩ =
      (true, -4) :=
  c10_negative_lag_within_threshold 3 _ [[("Master_Host", some "h"), ("Seconds_Behind_Master", some "-4")]]
    (-4) (by decide) rfl (by decide) (by decide) (by decide)

/-!  Claim C1  -/

/-- Claim C1 as stated is false: with threshold `t = 5` and a decoded row
whose parsed lag is `5` — which lies in the half-open interval `(0, 5]` —
the Lag Evaluator answers `withinThreshold = false`, because the code
compares with strict `lagCount > lag`. -/
theorem c1_lag_interval_counterexample :
    (unknownColumns [[("Seconds_Behind_Master", some "5")]]).secondsMaster = "5" ∧
    atoi "5" = 5 ∧ ((0 : Int) < 5 ∧ (5 : Int) ≤ 5) ∧
    replicaStatus 5 ⟨none, some [[("Seconds_Behind_Master", some "5")]], none, none⟩ =
      (false, 5) := by
  decide

/-- Claim C1 amended: for every threshold `t > 0` and every decoded
replication row whose `Seconds_Behind_Master` field is present,
`replicaStatus t` returns the parsed lag, and `withinThreshold = true`
iff the parsed lag is strictly less than `t` — so a lag of `0` with the
field present counts, while a lag exactly equal to `t` does not. -/
theorem c1_lag_interval_amended (t : Int) (st : DBState) (rows : List RawRow)
    (ht : 0 < t) (hrows : st.slaveRows = some rows)
    (hs : (unknownColumns rows).secondsMaster ≠ "") :
    ((replicaStatus t st).1 = true ↔ atoi (unknownColumns rows).secondsMaster < t) ∧
    (replicaStatus t st).2 = atoi (unknownColumns rows).secondsMaster := by
  have ht0 : ¬ (t = 0) := by omega
  simp only [replicaStatus, hrows, if_neg ht0, if_neg hs]
  rw [if_pos (Or.inr hs)]
  by_cases h : t > atoi (unknownColumns rows).secondsMaster
  · rw [if_pos h]
    simpa using h
  · rw [if_neg h]
    constructor
    · simp only [Prod.fst]
      constructor
      · intro hfalse
        exact absurd hfalse (by decide)
      · intro hlt
        exact absurd hlt (by omega)
    · rfl

/-- Witness for the amended C1, at threshold `5` with parsed lags `4`
(within) and `5` (not within). -/
theorem c1_lag_interval_amended_witness :
    (((replicaStatus 5 ⟨none, some [[("Seconds_Behind_Master", some "4")]], none, none⟩).1 = true ↔
        atoi (unknownColumns [[("Seconds_Behind_Master", some "4")]]).secondsMaster < 5) ∧
      (replicaStatus 5 ⟨none, some [[("Seconds_Behind_Master", some "4")]], none, none⟩).2 =
        atoi (unknownColumns [[("Seconds_Behind_Master", some "4")]]).secondsMaster) ∧
    (((replicaStatus 5 ⟨none, some [[("Seconds_Behind_Master", some "6")]], none, none⟩).1 = true ↔
        atoi (unknownColumns [[("Seconds_Behind_Master", some "6")]]).secondsMaster < 5) ∧
      (replicaStatus 5 ⟨none, some [[("Seconds_Behind_Master", some "6")]], none, none⟩).2 =
        atoi (unknownColumns [[("Seconds_Behind_Master", some "6")]]).secondsMaster) :=
  ⟨c1_lag_interval_amended 5 _ [[("Seconds_Behind_Master", some "4")]] (by decide) rfl (by decide),
   c1_lag_interval_amended 5 _ [[("Seconds_Behind_Master", some "6")]] (by decide) rfl (by decide)⟩

/-!  Claim C2  -/

/-- Claim C2 as stated is false for the repository-root variant: with
`readOnly = false`, an empty replication result and a binlog-dump count of
`0`, `RouteRoleMaster` still answers `true`, because that variant's
formula omits the `binlogDumpCount > 0` term. -/
theorem c2_master_role_counterexample :
    servingBinlogs ⟨some ("read_only", "OFF"), some [], some 0, none⟩ = 0 ∧
    (RouteRoleMaster ⟨some ("read_only", "OFF"), some [], some 0, none⟩).1 = true := by
  decide

/-- Claim C2 amended: the `app/` variant of the master-role
classification (with the `/master` marker file absent) returns `true`
exactly when `readOnly` is false, the node is not a replica, and the
binlog-dump count is positive — in particular it is `false` whenever the
count is `0`, and `true` unconditionally when the marker file exists; the
repository-root variant omits the binlog term: it returns `true` exactly
when `readOnly` is false and the node is not a replica. -/
theorem c2_master_role_amended (st : DBState) (hc : 0 ≤ servingBinlogs st) :
    ((RouteRoleMasterApp false st).1 = true ↔
      readOnly st = false ∧ (isReplica st).1 = false ∧ 0 < servingBinlogs st) ∧
    (RouteRoleMasterApp true st).1 = true ∧
    ((RouteRoleMaster st).1 = true ↔ readOnly st = false ∧ (isReplica st).1 = false) := by
  refine ⟨?_, rfl, ?_⟩
  · simp only [RouteRoleMasterApp, if_neg (by decide : ¬ (false = true)), int2bool,
      Bool.and_eq_true, Bool.not_eq_true']
    constructor
    · rintro ⟨⟨hro, hrep⟩, hcount⟩
      refine ⟨hro, hrep, ?_⟩
      by_cases h : servingBinlogs st = 0
      · rw [if_neg (by simpa using h)] at hcount
        exact absurd hcount (by decide)
      · omega
    · rintro ⟨hro, hrep, hcount⟩
      refine ⟨⟨hro, hrep⟩, ?_⟩
      rw [if_pos (by omega)]
  · simp only [RouteRoleMaster, Bool.and_eq_true, Bool.not_eq_true']

/-- Witness for the amended C2: a read-write non-replica serving binlogs
is a master in the `app/` variant; with count `0` it is not; the root
variant answers `true` already without binlogs. -/
theorem c2_master_role_amended_witness :
    (RouteRoleMasterApp false ⟨some ("read_only", "OFF"), some [], some 2, none⟩).1 = true ∧
    (RouteRoleMasterApp false ⟨some ("read_only", "OFF"), some [], some 0, none⟩).1 = false ∧
    (RouteRoleMaster ⟨some ("read_only", "OFF"), some [], some 0, none⟩).1 = true :=
  ⟨(c2_master_role_amended ⟨some ("read_only", "OFF"), some [], some 2, none⟩ (by decide)).1.mpr
      ⟨rfl, rfl, by decide⟩,
   by
    have h := (c2_master_role_amended ⟨some ("read_only", "OFF"), some [], some 0, none⟩ (by decide)).1
    revert h
    decide,
   (c2_master_role_amended ⟨some ("read_only", "OFF"), some [], some 0, none⟩ (by decide)).2.2.mpr
      ⟨rfl, rfl⟩⟩

/-!  Claim C3  -/

/-- Claim C3 as stated is false: in a single-row result whose
`Master_Host` cell is NULL, the decoder does not decode the recognized
column `Master_Port` that appears after the NULL cell — the early
`return` abandons the whole row, leaving `masterPort` empty instead of
`"3306"`. -/
theorem c3_null_column_counterexample :
    (unknownColumns [[("Master_Host", none), ("Master_Port", some "3306")]]).masterPort = "" ∧
    (unknownColumns [[("Master_Host", none), ("Master_Port", some "3306")]]).masterPort ≠ "3306" ∧
    (unknownColumns [[("Master_Host", none), ("Master_Port", some "3306")]]).masterHost = "" := by
  decide

/-- Claim C3 amended: on a single-row result, the decoder stops at the
first NULL-valued cell: recognized columns before it are decoded, the
NULL field itself and every column after it are left unset, no error is
raised and the string `"NULL"` is never stored — the result equals the
decode of the NULL-free prefix alone. -/
theorem c3_null_column_amended (pre post : RawRow) (c : String)
    (h : ∀ p ∈ pre, p.2 ≠ none) :
    unknownColumns [pre ++ (c, none) :: post] = unknownColumns [pre] := by
  have h1 := scanCells_append_none pre post c { } h
  have h2 := scanCells_snd_eq_false pre { } h
  rcases hsc : scanCells { } pre with ⟨r, b⟩
  rw [hsc] at h1 h2
  simp only at h2
  subst h2
  simp only [unknownColumns, scanRows, h1, hsc]

/-- Witness for the amended C3: `Master_Host` decoded from before the
NULL `Master_Port` cell, `Seconds_Behind_Master` after it left unset. -/
theorem c3_null_column_amended_witness :
    unknownColumns [[("Master_Host", some "h")] ++ ("Master_Port", none) ::
        [("Seconds_Behind_Master", some "7")]] =
      unknownColumns [[("Master_Host", some "h")]] :=
  c3_null_column_amended [("Master_Host", some "h")] [("Seconds_Behind_Master", some "7")]
    "Master_Port" (by decide)

/-!  Claim C6  -/

/-- Claim C6: when the replication row is present (non-empty decoded
`Master_Host`) with `Seconds_Behind_Master` equal to `"0"` and `readOnly`
is `true`, the follower classification answers `true`, the replica-role
classification (unbounded threshold) answers `true`, and the
replication-lag read endpoint reports detail `"0"`: a present-but-zero
lag field is a synced replica, not "not a replica". -/
theorem c6_synced_replica (st : DBState) (rows : List RawRow)
    (hrows : st.slaveRows = some rows)
    (hhost : (unknownColumns rows).masterHost ≠ "")
    (hlag : (unknownColumns rows).secondsMaster = "0")
    (hro : readOnly st = true) :
    (RouteStatusFollower st).1 = true ∧ (RouteRoleReplica st).1 = true ∧
    (RouteReadReplicationLag st).2 = "0" := by
  have hrep : (isReplica st).1 = true := by
    simp [isReplica, hrows, if_pos hhost]
  have hstat := replicaStatus_zero_lag st rows hrows hlag
  refine ⟨hrep, ?_, ?_⟩
  · simp [RouteRoleReplica, hro, hstat]
  · have hz : toString ((0 : Int)) = "0" := rfl
    simp [RouteReadReplicationLag, hrep, hstat, hz]

/-- Witness for C6 on a concrete synced-replica snapshot. -/
theorem c6_synced_replica_witness :
    (RouteStatusFollower ⟨some ("read_only", "ON"), some [[("Master_Host", some "m"), ("Seconds_Behind_Master", some "0")]], none, none⟩).1 = true ∧
    (RouteRoleReplica ⟨some ("read_only", "ON"), some [[("Master_Host", some "m"), ("Seconds_Behind_Master", some "0")]], none, none⟩).1 = true ∧
    (RouteReadReplicationLag ⟨some ("read_only", "ON"), some [[("Master_Host", some "m"), ("Seconds_Behind_Master", some "0")]], none, none⟩).2 = "0" :=
  c6_synced_replica _ [[("Master_Host", some "m"), ("Seconds_Behind_Master", some "0")]]
    rfl (by decide) (by decide) rfl

/-!  Claim C7  -/

/-- Claim C7's second half is false: on a snapshot whose replication row
carries a non-empty `Master_Host` but no `Seconds_Behind_Master` field,
the follower classification answers `true` while the unbounded Lag
Evaluator answers `withinThreshold = false` — so the replica role is not
obtainable there even with `readOnly = true`. -/
theorem c7_consistency_counterexample :
    (RouteStatusFollower ⟨some ("read_only", "ON"), some [[("Master_Host", some "h")]], none, none⟩).1 = true ∧
    (replicaStatus 0 ⟨some ("read_only", "ON"), some [[("Master_Host", some "h")]], none, none⟩).1 = false ∧
    (RouteRoleReplica ⟨some ("read_only", "ON"), some [[("Master_Host", some "h")]], none, none⟩).1 = false := by
  decide

/-- Claim C7 amended: `readOnly = true` and the master-role
classification can never both hold; and whenever the follower
classification answers `true` *and* the decoded row's
`Seconds_Behind_Master` field is present with parsed lag below
`math.MaxInt64`, the unbounded Lag Evaluator answers
`withinThreshold = true` (so the replica role is obtainable). -/
theorem c7_consistency_amended (st : DBState) (rows : List RawRow)
    (hrows : st.slaveRows = some rows) :
    (readOnly st = true → (RouteRoleMaster st).1 = false) ∧
    (((RouteStatusFollower st).1 = true ∧ (unknownColumns rows).secondsMaster ≠ "" ∧
        atoi (unknownColumns rows).secondsMaster < maxInt64) →
      (replicaStatus 0 st).1 = true) := by
  constructor
  · intro hro
    simp [RouteRoleMaster, hro]
  · rintro ⟨hfol, hs, hlt⟩
    simp only [replicaStatus, hrows, if_neg hs, eq_self_iff_true, if_true, ite_true]
    rw [if_pos (Or.inr hs), if_pos hlt]

/-- Witness for the amended C7 on a read-only replica two seconds
behind. -/
theorem c7_consistency_amended_witness :
    (RouteRoleMaster ⟨some ("read_only", "ON"), some [[("Master_Host", some "h"), ("Seconds_Behind_Master", some "2")]], none, none⟩).1 = false ∧
    (replicaStatus 0 ⟨some ("read_only", "ON"), some [[("Master_Host", some "h"), ("Seconds_Behind_Master", some "2")]], none, none⟩).1 = true :=
  ⟨(c7_consistency_amended _ [[("Master_Host", some "h"), ("Seconds_Behind_Master", some "2")]] rfl).1 rfl,
   (c7_consistency_amended _ [[("Master_Host", some "h"), ("Seconds_Behind_Master", some "2")]] rfl).2
      ⟨by decide, by decide, by decide⟩⟩

/-!  Claim C8  -/

/-- Claim C8: each probe resolves a query failure or an absent result row
to its negative signal value — `readOnly = false`, not-a-replica with
empty detail, binlog-dump count `0`, and Galera `(false, "")`; every
classification stays total and just answers `false` with empty detail. -/
theorem c8_probe_failure_negative (st : DBState) :
    (st.readOnlyResult = none → readOnly st = false) ∧
    ((st.slaveRows = none ∨ st.slaveRows = some []) → isReplica st = (false, "", "")) ∧
    (st.binlogCount = none → servingBinlogs st = 0) ∧
    (st.galeraRow = none → galeraClusterState st = (false, "")) := by
  refine ⟨?_, ?_, ?_, ?_⟩
  · intro h
    simp [readOnly, h]
  · rintro (h | h)
    · simp [isReplica, h]
    · have hu : (unknownColumns []).masterHost = "" := rfl
      simp [isReplica, h, hu]
  · intro h
    simp [servingBinlogs, h]
  · intro h
    simp [galeraClusterState, h]

/-- Witness for C8 on the all-probes-failed snapshot and on an empty
replication result. -/
theorem c8_probe_failure_negative_witness :
    readOnly ⟨none, none, none, none⟩ = false ∧
    isReplica ⟨none, none, none, none⟩ = (false, "", "") ∧
    isReplica ⟨none, some [], none, none⟩ = (false, "", "") ∧
    servingBinlogs ⟨none, none, none, none⟩ = 0 ∧
    galeraClusterState ⟨none, none, none, none⟩ = (false, "") :=
  ⟨(c8_probe_failure_negative ⟨none, none, none, none⟩).1 rfl,
   (c8_probe_failure_negative ⟨none, none, none, none⟩).2.1 (Or.inl rfl),
   (c8_probe_failure_negative ⟨none, some [], none, none⟩).2.1 (Or.inr rfl),
   (c8_probe_failure_negative ⟨none, none, none, none⟩).2.2.1 rfl,
   (c8_probe_failure_negative ⟨none, none, none, none⟩).2.2.2 rfl⟩

/-!  Claim C9  -/

/-- Claim C9: every publicly observable `ReplicationRow` satisfies the
invariant — `isReplica = false` implies `masterHost`, `masterPort` and
the lag detail are all empty, and `isReplica = true` holds exactly when
the replication query returned rows whose decoded `Master_Host` is
non-empty (an absent diagnostic result and an empty host both yield
"not a replica"). -/
theorem c9_replication_row_invariant (st : DBState) :
    ((replicationRow st).isReplica = false →
      (replicationRow st).masterHost = "" ∧ (replicationRow st).masterPort = "" ∧
      (replicationRow st).lagDetail = "") ∧
    ((replicationRow st).isReplica = true ↔
      ∃ rows, st.slaveRows = some rows ∧ (unknownColumns rows).masterHost ≠ "") := by
  cases h : st.slaveRows with
  | none =>
      constructor
      · intro _
        simp [replicationRow, RouteReadReplicationLag, isReplica, h]
      · simp [replicationRow, isReplica, h]
  | some rows =>
      by_cases hh : (unknownColumns rows).masterHost ≠ ""
      · constructor
        · intro hfalse
          have htrue : (replicationRow st).isReplica = true := by
            simp [replicationRow, isReplica, h, if_pos hh]
          rw [htrue] at hfalse
          exact absurd hfalse (by decide)
        · constructor
          · intro _
            exact ⟨rows, rfl, hh⟩
          · intro _
            simp [replicationRow, isReplica, h, if_pos hh]
      · constructor
        · intro _
          simp [replicationRow, RouteReadReplicationLag, isReplica, h, if_neg hh]
        · constructor
          · intro htrue
            exfalso
            simp [replicationRow, isReplica, h, if_neg hh] at htrue
          · rintro ⟨rows2, hrows2, hh2⟩
            injection hrows2 with he
            subst he
            exact absurd hh2 hh

/-- Witness for C9: the invariant applied to a no-replication snapshot
and, via the iff, to a genuine replica snapshot. -/
theorem c9_replication_row_invariant_witness :
    ((replicationRow ⟨none, none, none, none⟩).masterHost = "" ∧
      (replicationRow ⟨none, none, none, none⟩).masterPort = "" ∧
      (replicationRow ⟨none, none, none, none⟩).lagDetail = "") ∧
    (replicationRow ⟨none, some [[("Master_Host", some "mh"), ("Master_Port", some "3306")]], none, none⟩).isReplica = true :=
  ⟨(c9_replication_row_invariant ⟨none, none, none, none⟩).1 (by decide),
   (c9_replication_row_invariant ⟨none, some [[("Master_Host", some "mh"), ("Master_Port", some "3306")]], none, none⟩).2.mpr
      ⟨[[("Master_Host", some "mh"), ("Master_Port", some "3306")]], rfl, by decide⟩⟩
